import Mathlib

/-!
Shallow embedding of `ISS/algorithms/control/pid_wpt_tracker.py`:
a waypoint-tracking vehicle controller built from a longitudinal and a
lateral PID controller, coordinated by `VehiclePIDController.run_step`.

Python floats are modelled as real numbers.  The trajectory list held by
the tracker (`self.traj`) aliases the caller's list object, so it is
modelled by a store mapping references to waypoint lists: rebinding the
reference (`set_traj`) is then distinguishable from mutating the list in
place (`self.traj.clear()` inside `reset`).
-/

noncomputable section

namespace PidWptTracker

/-- One trajectory point; python tuples indexed `[0] [1] [2] [3]`.
Field `[2]` (here `z`) is present in the data but unused by the controllers. -/
structure Waypoint where
  x : ℝ
  y : ℝ
  z : ℝ
  target_speed : ℝ

instance : Inhabited Waypoint := ⟨⟨0, 0, 0, 0⟩⟩

/-- The vehicle pose handed to `VehiclePIDController.run_step` each tick. -/
structure VehicleLocation where
  x : ℝ
  y : ℝ
  heading_angle : ℝ
  velocity : ℝ

/-- `np.clip(x, lo, hi) = min(max(x, lo), hi)`. -/
def clip (x lo hi : ℝ) : ℝ := min (max x lo) hi

/-- `deque(maxlen=10).append(x)`: append, evicting the oldest sample when full. -/
def bufPush (buf : List ℝ) (x : ℝ) : List ℝ :=
  if buf.length < 10 then buf ++ [x] else buf.tail ++ [x]

/-- `(buf[-1] - buf[-2]) / dt` when at least two samples exist, else `0.0`
(the gate `len(...) >= 2` of `_pid_control`). -/
def errDerivative (buf : List ℝ) (dt : ℝ) : ℝ :=
  if 2 ≤ buf.length then (buf.getD (buf.length - 1) 0 - buf.getD (buf.length - 2) 0) / dt
  else 0

/-- `sum(buf) * dt` when at least two samples exist, else `0.0`. -/
def errIntegral (buf : List ℝ) (dt : ℝ) : ℝ :=
  if 2 ≤ buf.length then buf.sum * dt else 0

/-- State of `PIDLongitudinalController`; field order follows the
python constructor signature. -/
structure PIDLongitudinalController where
  K_P : ℝ
  K_D : ℝ
  K_I : ℝ
  output_max : ℝ
  output_min : ℝ
  dt : ℝ
  error_buffer : List ℝ

/-- `PIDLongitudinalController.__init__`: stores the gains and starts with an
empty error buffer.  No validation of any kind is performed. -/
def PIDLongitudinalController.init (K_P K_D K_I output_max output_min dt : ℝ) :
    PIDLongitudinalController :=
  ⟨K_P, K_D, K_I, output_max, output_min, dt, []⟩

/-- `PIDLongitudinalController.reset`: fresh empty error buffer, gains kept. -/
def PIDLongitudinalController.reset (c : PIDLongitudinalController) :
    PIDLongitudinalController :=
  { c with error_buffer := [] }

/-- `PIDLongitudinalController._pid_control`: push the speed error, estimate
derivative and integral from the buffer, clip the PID sum to
`[output_min, output_max]`.  Returns the throttle and the updated state. -/
def PIDLongitudinalController.pid_control (c : PIDLongitudinalController)
    (current_speed target_speed : ℝ) : ℝ × PIDLongitudinalController :=
  let error := target_speed - current_speed
  let buf := bufPush c.error_buffer error
  let de := errDerivative buf c.dt
  let ie := errIntegral buf c.dt
  (clip (c.K_P * error + c.K_D * de + c.K_I * ie) c.output_min c.output_max,
   { c with error_buffer := buf })

/-- `PIDLongitudinalController.run_step` just delegates to `_pid_control`. -/
def PIDLongitudinalController.run_step (c : PIDLongitudinalController)
    (current_speed target_speed : ℝ) : ℝ × PIDLongitudinalController :=
  c.pid_control current_speed target_speed

/-- `PIDLongitudinalController.change_parameters`: overwrites the four scalar
parameters in place; the error buffer is untouched and nothing is checked. -/
def PIDLongitudinalController.change_parameters (c : PIDLongitudinalController)
    (K_P K_I K_D dt : ℝ) : PIDLongitudinalController :=
  { c with K_P := K_P, K_I := K_I, K_D := K_D, dt := dt }

/-- `np.dot` of two 3-vectors. -/
def dot3 (a b : ℝ × ℝ × ℝ) : ℝ := a.1 * b.1 + a.2.1 * b.2.1 + a.2.2 * b.2.2

/-- `np.linalg.norm` of a 3-vector. -/
def norm3 (a : ℝ × ℝ × ℝ) : ℝ := Real.sqrt (a.1 ^ 2 + a.2.1 ^ 2 + a.2.2 ^ 2)

/-- z-component of `np.cross(a, b)` for 3-vectors. -/
def cross3z (a b : ℝ × ℝ × ℝ) : ℝ := a.1 * b.2.1 - a.2.1 * b.1

/-- State of `PIDLateralController`: gains, the error deque `_e_buffer`, and
the append-only diagnostic log `lat_error`. -/
structure PIDLateralController where
  K_P : ℝ
  K_D : ℝ
  K_I : ℝ
  output_max : ℝ
  output_min : ℝ
  dt : ℝ
  e_buffer : List ℝ
  lat_error : List ℝ

/-- `PIDLateralController.__init__`: stores the gains, empty buffer and log. -/
def PIDLateralController.init (K_P K_D K_I output_max output_min dt : ℝ) :
    PIDLateralController :=
  ⟨K_P, K_D, K_I, output_max, output_min, dt, [], []⟩

/-- `PIDLateralController.reset`: replaces `_e_buffer` with a fresh deque.
Note that `lat_error` is NOT cleared by the source. -/
def PIDLateralController.reset (c : PIDLateralController) : PIDLateralController :=
  { c with e_buffer := [] }

/-- `PIDLateralController._pid_control`: signed bearing-error PID.
`vehicle_location` is `(x, y, heading)`, `waypoint` is `(x, y)`.
The cosine argument is clipped to `[-1, 1]` before `acos`; the division by
`|w| * |v|` is NOT guarded against a zero-length `w`. -/
def PIDLateralController.pid_control (c : PIDLateralController)
    (vehicle_location : ℝ × ℝ × ℝ) (waypoint : ℝ × ℝ) : ℝ × PIDLateralController :=
  let v_vec : ℝ × ℝ × ℝ :=
    (Real.cos vehicle_location.2.2, Real.sin vehicle_location.2.2, 0)
  let w_vec : ℝ × ℝ × ℝ :=
    (waypoint.1 - vehicle_location.1, waypoint.2 - vehicle_location.2.1, 0)
  let dot0 := Real.arccos (clip (dot3 w_vec v_vec / (norm3 w_vec * norm3 v_vec)) (-1) 1)
  let dotS := if cross3z v_vec w_vec < 0 then -dot0 else dot0
  let buf := bufPush c.e_buffer dotS
  let log := c.lat_error ++ [dotS]
  let de := errDerivative buf c.dt
  let ie := errIntegral buf c.dt
  (clip (c.K_P * dotS + c.K_D * de + c.K_I * ie) c.output_min c.output_max,
   { c with e_buffer := buf, lat_error := log })

/-- `PIDLateralController.run_step` just delegates to `_pid_control`. -/
def PIDLateralController.run_step (c : PIDLateralController)
    (vehicle_location : ℝ × ℝ × ℝ) (waypoint : ℝ × ℝ) : ℝ × PIDLateralController :=
  c.pid_control vehicle_location waypoint

/-- `PIDLateralController.change_parameters`: overwrites the scalar
parameters; nothing is checked. -/
def PIDLateralController.change_parameters (c : PIDLateralController)
    (K_P K_I K_D dt : ℝ) : PIDLateralController :=
  { c with K_P := K_P, K_I := K_I, K_D := K_D, dt := dt }

/-- `np.linalg.norm` of the 2-vector `(x, y)` used by the cursor loop. -/
def norm2 (x y : ℝ) : ℝ := Real.sqrt (x ^ 2 + y ^ 2)

/-- Heap of python list objects: a reference is an index, its content the
current list value.  Captures aliasing between the caller's trajectory
list and the tracker's `self.traj`. -/
def Store : Type := ℕ → List Waypoint

/-- In-place `list.clear()` on the list referenced by `r`. -/
def Store.clearAt (s : Store) (r : ℕ) : Store :=
  fun n => if n = r then [] else s n

/-- State of `VehiclePIDController`; `traj_ref` references the current
trajectory list in the store. -/
structure VehiclePIDController where
  look_ahead : ℝ
  lon_controller : PIDLongitudinalController
  lat_controller : PIDLateralController
  traj_ref : ℕ
  waypoint_index : ℕ

/-- The `while` loop of `run_step`: starting from `i`, advance the cursor
while `i < len(traj) - 1` and the distance from the vehicle `(px, py)` to
`traj[i]` does not exceed `look_ahead`; stop at the first waypoint whose
distance exceeds `look_ahead` (the `break`), or at index `len(traj) - 1`. -/
def advanceCursor (traj : List Waypoint) (px py look_ahead : ℝ) (i : ℕ) : ℕ :=
  if h : i + 1 < traj.length then
    if norm2 (px - (traj.getD i default).x) (py - (traj.getD i default).y) > look_ahead then i
    else advanceCursor traj px py look_ahead (i + 1)
  else i
termination_by traj.length - i
decreasing_by omega

/-- The cursor loop as the specification words it (for comparison with
`advanceCursor`): advance while the distance EXCEEDS the look-ahead and
stop at the first waypoint within the radius. -/
def claimAdvanceCursor (traj : List Waypoint) (px py look_ahead : ℝ) (i : ℕ) : ℕ :=
  if h : i + 1 < traj.length then
    if norm2 (px - (traj.getD i default).x) (py - (traj.getD i default).y) > look_ahead then
      claimAdvanceCursor traj px py look_ahead (i + 1)
    else i
  else i
termination_by traj.length - i
decreasing_by omega

/-- `VehiclePIDController.__init__` with the default argument dictionaries
(`args_lateral = {K_P: 2, K_I: 0, K_D: 0.2, max: 1, min: -1, dt: 0.1}`,
`args_longitudinal = {K_P: 2, K_I: 0, K_D: 0.1, max: 1, min: 0, dt: 0.1}`);
`r` references the freshly created empty `self.traj` list. -/
def VehiclePIDController.init (look_ahead : ℝ) (r : ℕ) (s : Store) :
    VehiclePIDController × Store :=
  (⟨look_ahead, PIDLongitudinalController.init 2 (1/10) 0 1 0 (1/10),
    PIDLateralController.init 2 (1/5) 0 1 (-1) (1/10), r, 0⟩,
   Store.clearAt s r)

/-- `VehiclePIDController.set_traj`: rebinds `self.traj` to the caller's
list `r` and zeroes the cursor; no list is modified. -/
def VehiclePIDController.set_traj (c : VehiclePIDController) (s : Store) (r : ℕ) :
    VehiclePIDController × Store :=
  ({ c with traj_ref := r, waypoint_index := 0 }, s)

/-- `VehiclePIDController.reset`: `self.traj.clear()` (an in-place mutation of
the referenced list), cursor back to `0`, both PID controllers reset. -/
def VehiclePIDController.reset (c : VehiclePIDController) (s : Store) :
    VehiclePIDController × Store :=
  ({ c with waypoint_index := 0,
            lon_controller := c.lon_controller.reset,
            lat_controller := c.lat_controller.reset },
   Store.clearAt s c.traj_ref)

/-- `VehiclePIDController.run_step`: terminal guard, cursor-advance loop,
longitudinal then lateral PID, unconditional cursor increment, optional
throttle override.  Returns `((throttle, steering), state, store)`. -/
def VehiclePIDController.run_step (c : VehiclePIDController) (s : Store)
    (vehicle_location : VehicleLocation) (thro_as_speed : Bool) :
    (ℝ × ℝ) × VehiclePIDController × Store :=
  let traj := s c.traj_ref
  if traj.length ≤ c.waypoint_index + 1 then ((0, 0), c, s)
  else
    let current_location : ℝ × ℝ × ℝ :=
      (vehicle_location.x, vehicle_location.y, vehicle_location.heading_angle)
    let current_speed := vehicle_location.velocity
    let i := advanceCursor traj vehicle_location.x vehicle_location.y c.look_ahead
      c.waypoint_index
    let traj_point := traj.getD i default
    let target_speed := traj_point.target_speed
    let lon_res := c.lon_controller.run_step current_speed target_speed
    let lat_res := c.lat_controller.run_step current_location (traj_point.x, traj_point.y)
    let throttle := if thro_as_speed then target_speed else lon_res.1
    ((throttle, lat_res.1),
     { c with waypoint_index := i + 1,
              lon_controller := lon_res.2,
              lat_controller := lat_res.2 }, s)

/-! Concrete fixtures used by counterexamples and witnesses. -/

/-- Waypoint at the origin with target speed 5. -/
def w0 : Waypoint := ⟨0, 0, 0, 5⟩

/-- Waypoint half a unit ahead (within the default look-ahead radius 1). -/
def wA : Waypoint := ⟨1/2, 0, 0, 5⟩

/-- Waypoint ten units ahead (beyond the default look-ahead radius 1). -/
def wB : Waypoint := ⟨10, 0, 0, 5⟩

/-- Waypoint twenty units ahead with target speed 0. -/
def wC : Waypoint := ⟨20, 0, 0, 0⟩

/-- The three-waypoint trajectory of the end-to-end scenario in the spec. -/
def traj3 : List Waypoint := [w0, wB, wC]

/-- A lateral controller with the tracker's default lateral gains. -/
def latDefault : PIDLateralController := PIDLateralController.init 2 (1/5) 0 1 (-1) (1/10)

/-- A tracker with default gains, look-ahead 1, trajectory reference 0. -/
def tracker0 : VehiclePIDController :=
  (VehiclePIDController.init 1 0 (fun _ => [])).1

/-- Store for the aliasing counterexample: the caller's list `[w0]` lives at
reference 5. -/
def s1 : Store := fun n => if n = 5 then [w0] else []

/-- Store holding the two-waypoint trajectory `[w0, wB]` at every reference. -/
def s2 : Store := fun _ => [w0, wB]

/-- Store holding the two-close-waypoint trajectory `[w0, wA]`. -/
def s3 : Store := fun _ => [w0, wA]

/-- Vehicle at the origin, heading 0, speed 0. -/
def v0 : VehicleLocation := ⟨0, 0, 0, 0⟩

/-! ### Helper lemmas -/

lemma clip_le (x lo hi : ℝ) : clip x lo hi ≤ hi := min_le_right _ _

lemma le_clip (x lo hi : ℝ) (h : lo ≤ hi) : lo ≤ clip x lo hi :=
  le_min (le_max_right x lo) h

lemma bufPush_length_le (buf : List ℝ) (x : ℝ) (h : buf.length ≤ 10) :
    (bufPush buf x).length ≤ 10 := by
  unfold bufPush
  rcases lt_or_ge buf.length 10 with h1 | h1
  · rw [if_pos h1]
    simp only [List.length_append, List.length_cons, List.length_nil]
    omega
  · rw [if_neg (not_lt.mpr h1)]
    simp only [List.length_append, List.length_cons, List.length_nil, List.length_tail]
    omega

lemma bufPush_full (buf : List ℝ) (x : ℝ) (h : buf.length = 10) :
    bufPush buf x = buf.tail ++ [x] := by
  rw [bufPush, if_neg (by omega)]

lemma foldl_bufPush (xs : List ℝ) : ∀ buf : List ℝ, buf.length ≤ 10 →
    List.foldl bufPush buf xs = (buf ++ xs).drop (buf.length + xs.length - 10) := by
  induction xs with
  | nil =>
    intro buf h
    simp only [List.foldl_nil, List.append_nil, List.length_nil, Nat.add_zero,
      Nat.sub_eq_zero_of_le h, List.drop_zero]
  | cons x xs ih =>
    intro buf h
    rw [List.foldl_cons, ih (bufPush buf x) (bufPush_length_le buf x h)]
    rcases lt_or_ge buf.length 10 with h1 | h1
    · rw [bufPush, if_pos h1]
      have e1 : (buf ++ [x]) ++ xs = buf ++ x :: xs := by simp
      have e2 : (buf ++ [x]).length + xs.length - 10 =
          buf.length + (x :: xs).length - 10 := by
        simp only [List.length_append, List.length_cons, List.length_nil]
        omega
      rw [e1, e2]
    · have h10 : buf.length = 10 := le_antisymm h h1
      rw [bufPush, if_neg (by omega)]
      obtain ⟨y, ys, rfl⟩ : ∃ y ys, buf = y :: ys := by
        cases buf with
        | nil => simp at h10
        | cons y ys => exact ⟨y, ys, rfl⟩
      simp only [List.tail_cons]
      have e1 : (ys ++ [x]) ++ xs = ys ++ x :: xs := by simp
      have e2 : (ys ++ [x]).length + xs.length - 10 = xs.length := by
        simp only [List.length_cons] at h10
        simp only [List.length_append, List.length_cons, List.length_nil]
        omega
      have e3 : (y :: ys).length + (x :: xs).length - 10 = xs.length + 1 := by
        simp only [List.length_cons] at h10 ⊢
        omega
      rw [e1, e2, e3, List.cons_append, List.drop_succ_cons]

lemma advanceCursor_ge (traj : List Waypoint) (px py R : ℝ) :
    ∀ i, i ≤ advanceCursor traj px py R i := by
  have H : ∀ n i, traj.length - i ≤ n → i ≤ advanceCursor traj px py R i := by
    intro n
    induction n with
    | zero =>
      intro i hn
      unfold advanceCursor
      rw [dif_neg (by omega)]
    | succ n ih =>
      intro i hn
      unfold advanceCursor
      by_cases h1 : i + 1 < traj.length
      · rw [dif_pos h1]
        by_cases h2 : norm2 (px - (traj.getD i default).x) (py - (traj.getD i default).y) > R
        · rw [if_pos h2]
        · rw [if_neg h2]
          exact le_trans (Nat.le_succ i) (ih (i + 1) (by omega))
      · rw [dif_neg h1]
  intro i
  exact H (traj.length - i) i le_rfl

lemma advanceCursor_le (traj : List Waypoint) (px py R : ℝ) :
    ∀ i, i + 1 ≤ traj.length → advanceCursor traj px py R i + 1 ≤ traj.length := by
  have H : ∀ n i, traj.length - i ≤ n → i + 1 ≤ traj.length →
      advanceCursor traj px py R i + 1 ≤ traj.length := by
    intro n
    induction n with
    | zero =>
      intro i hn hi
      exact absurd hi (by omega)
    | succ n ih =>
      intro i hn hi
      unfold advanceCursor
      by_cases h1 : i + 1 < traj.length
      · rw [dif_pos h1]
        by_cases h2 : norm2 (px - (traj.getD i default).x) (py - (traj.getD i default).y) > R
        · rw [if_pos h2]
          omega
        · rw [if_neg h2]
          exact ih (i + 1) (by omega) (by omega)
      · rw [dif_neg h1]
        exact hi
  intro i hi
  exact H (traj.length - i) i le_rfl hi

lemma advanceCursor_stop_last (traj : List Waypoint) (px py R : ℝ) (i : ℕ)
    (h : ¬ i + 1 < traj.length) : advanceCursor traj px py R i = i := by
  rw [advanceCursor, dif_neg h]

lemma advanceCursor_stop_far (traj : List Waypoint) (px py R : ℝ) (i : ℕ)
    (h1 : i + 1 < traj.length)
    (h2 : norm2 (px - (traj.getD i default).x) (py - (traj.getD i default).y) > R) :
    advanceCursor traj px py R i = i := by
  rw [advanceCursor, dif_pos h1, if_pos h2]

lemma advanceCursor_step (traj : List Waypoint) (px py R : ℝ) (i : ℕ)
    (h1 : i + 1 < traj.length)
    (h2 : ¬ norm2 (px - (traj.getD i default).x) (py - (traj.getD i default).y) > R) :
    advanceCursor traj px py R i = advanceCursor traj px py R (i + 1) := by
  conv_lhs => rw [advanceCursor]
  rw [dif_pos h1, if_neg h2]

lemma clip_eq_self (x lo hi : ℝ) (h1 : lo ≤ x) (h2 : x ≤ hi) : clip x lo hi = x := by
  rw [clip, max_eq_left h1, min_eq_left h2]

lemma clip_eq_hi (x lo hi : ℝ) (h1 : lo ≤ x) (h2 : hi ≤ x) : clip x lo hi = hi := by
  rw [clip, max_eq_left h1, min_eq_right h2]

lemma lon_step_clip (c : PIDLongitudinalController) (cs ts : ℝ) :
    ∃ r, (c.run_step cs ts).1 = clip r c.output_min c.output_max := ⟨_, rfl⟩

lemma lat_step_clip (c : PIDLateralController) (loc : ℝ × ℝ × ℝ) (wp : ℝ × ℝ) :
    ∃ r, (c.run_step loc wp).1 = clip r c.output_min c.output_max := ⟨_, rfl⟩

/-! ### Claims -/

/-- Claim C1: for both PID controllers, whenever `output_min ≤ output_max`,
the value returned by a `run_step` lies in `[output_min, output_max]`, for
every input and every history-buffer state. -/
theorem pid_step_output_clamped
    (lonc : PIDLongitudinalController) (cs ts : ℝ)
    (latc : PIDLateralController) (loc : ℝ × ℝ × ℝ) (wp : ℝ × ℝ)
    (h1 : lonc.output_min ≤ lonc.output_max)
    (h2 : latc.output_min ≤ latc.output_max) :
    (lonc.output_min ≤ (lonc.run_step cs ts).1 ∧
      (lonc.run_step cs ts).1 ≤ lonc.output_max) ∧
    (latc.output_min ≤ (latc.run_step loc wp).1 ∧
      (latc.run_step loc wp).1 ≤ latc.output_max) := by
  obtain ⟨r1, e1⟩ := lon_step_clip lonc cs ts
  obtain ⟨r2, e2⟩ := lat_step_clip latc loc wp
  rw [e1, e2]
  exact ⟨⟨le_clip _ _ _ h1, clip_le _ _ _⟩, ⟨le_clip _ _ _ h2, clip_le _ _ _⟩⟩

/-- Claim C2 (amended): the waypoint cursor is incremented while the cursor
is below `len(trajectory) - 1` and the distance from the vehicle position to
`trajectory[cursor]` does NOT exceed the look-ahead radius, and the loop
stops at the first waypoint whose distance EXCEEDS the look-ahead radius
(or at the second-to-last index). -/
theorem advance_loop_characterization (traj : List Waypoint) (px py R : ℝ) (i : ℕ) :
    i ≤ advanceCursor traj px py R i ∧
    (∀ k, i ≤ k → k < advanceCursor traj px py R i →
      k + 1 < traj.length ∧
      norm2 (px - (traj.getD k default).x) (py - (traj.getD k default).y) ≤ R) ∧
    (advanceCursor traj px py R i + 1 < traj.length →
      norm2 (px - (traj.getD (advanceCursor traj px py R i) default).x)
        (py - (traj.getD (advanceCursor traj px py R i) default).y) > R) := by
  have H : ∀ n, ∀ i, traj.length - i ≤ n →
      i ≤ advanceCursor traj px py R i ∧
      (∀ k, i ≤ k → k < advanceCursor traj px py R i →
        k + 1 < traj.length ∧
        norm2 (px - (traj.getD k default).x) (py - (traj.getD k default).y) ≤ R) ∧
      (advanceCursor traj px py R i + 1 < traj.length →
        norm2 (px - (traj.getD (advanceCursor traj px py R i) default).x)
          (py - (traj.getD (advanceCursor traj px py R i) default).y) > R) := by
    intro n
    induction n with
    | zero =>
      intro i hn
      rw [advanceCursor_stop_last traj px py R i (by omega)]
      refine ⟨le_rfl, ?_, ?_⟩
      · intro k hk1 hk2
        exact absurd (lt_of_le_of_lt hk1 hk2) (lt_irrefl i)
      · intro hlt
        exact absurd hlt (by omega)
    | succ n ih =>
      intro i hn
      by_cases h1 : i + 1 < traj.length
      · by_cases h2 : norm2 (px - (traj.getD i default).x) (py - (traj.getD i default).y) > R
        · rw [advanceCursor_stop_far traj px py R i h1 h2]
          refine ⟨le_rfl, ?_, fun _ => h2⟩
          intro k hk1 hk2
          exact absurd (lt_of_le_of_lt hk1 hk2) (lt_irrefl i)
        · rw [advanceCursor_step traj px py R i h1 h2]
          obtain ⟨ih1, ih2, ih3⟩ := ih (i + 1) (by omega)
          refine ⟨by omega, ?_, ih3⟩
          intro k hk1 hk2
          rcases eq_or_lt_of_le hk1 with rfl | hk1'
          · exact ⟨h1, not_lt.mp h2⟩
          · exact ih2 k (by omega) hk2
      · rw [advanceCursor_stop_last traj px py R i h1]
        refine ⟨le_rfl, ?_, fun hlt => absurd hlt h1⟩
        intro k hk1 hk2
        exact absurd (lt_of_le_of_lt hk1 hk2) (lt_irrefl i)
  exact H (traj.length - i) i le_rfl

lemma sqrt_hundred : Real.sqrt 100 = 10 := by
  rw [show (100:ℝ) = 10 ^ 2 by norm_num]
  exact Real.sqrt_sq (by norm_num)

lemma traj3_length : traj3.length = 3 := rfl

lemma traj3_dist_zero :
    ¬ norm2 ((0:ℝ) - (traj3.getD 0 default).x) ((0:ℝ) - (traj3.getD 0 default).y) > 1 := by
  rw [show traj3.getD 0 default = w0 from rfl]
  rw [show w0.x = 0 from rfl, show w0.y = 0 from rfl, norm2]
  norm_num

lemma traj3_dist_one :
    norm2 ((0:ℝ) - (traj3.getD 1 default).x) ((0:ℝ) - (traj3.getD 1 default).y) > 1 := by
  rw [show traj3.getD 1 default = wB from rfl]
  rw [show wB.x = 10 from rfl, show wB.y = 0 from rfl, norm2]
  rw [show ((0:ℝ) - 10) ^ 2 + ((0:ℝ) - 0) ^ 2 = 100 by norm_num, sqrt_hundred]
  norm_num

lemma advanceCursor_traj3 : advanceCursor traj3 0 0 1 0 = 1 := by
  rw [advanceCursor_step traj3 0 0 1 0 (by rw [traj3_length]; omega) traj3_dist_zero]
  rw [advanceCursor_stop_far traj3 0 0 1 1 (by rw [traj3_length]; omega) traj3_dist_one]

lemma claimAdvanceCursor_traj3 : claimAdvanceCursor traj3 0 0 1 0 = 0 := by
  rw [claimAdvanceCursor, dif_pos (by rw [traj3_length]; omega : (0:ℕ) + 1 < traj3.length),
    if_neg traj3_dist_zero]

/-- Counterexample to claim C2 as stated: on the spec's own end-to-end
scenario (trajectory `[(0,0,0,5), (10,0,0,5), (20,0,0,0)]`, vehicle at the
origin, look-ahead 1) the code's loop advances the cursor to 1, while a loop
that increments only while the distance exceeds the radius — the claim's
wording — would stop at 0. -/
theorem advance_loop_claim_counterexample :
    advanceCursor traj3 0 0 1 0 = 1 ∧ claimAdvanceCursor traj3 0 0 1 0 = 0 ∧
    advanceCursor traj3 0 0 1 0 ≠ claimAdvanceCursor traj3 0 0 1 0 := by
  refine ⟨advanceCursor_traj3, claimAdvanceCursor_traj3, ?_⟩
  rw [advanceCursor_traj3, claimAdvanceCursor_traj3]
  omega

/-- Witness for the amended C2: on the concrete scenario, the skipped
waypoint 0 indeed was below index `len - 1` and within the look-ahead
radius. -/
theorem advance_loop_characterization_witness :
    0 + 1 < traj3.length ∧
    norm2 ((0:ℝ) - (traj3.getD 0 default).x) ((0:ℝ) - (traj3.getD 0 default).y) ≤ 1 :=
  (advance_loop_characterization traj3 0 0 1 0).2.1 0 le_rfl
    (by rw [advanceCursor_traj3]; omega)

/-- Witness for C1 at concrete gains and inputs. -/
theorem pid_step_output_clamped_witness :
    ((0:ℝ) ≤ 1) ∧ ((-1:ℝ) ≤ 1) ∧
    ((0:ℝ) ≤ ((PIDLongitudinalController.init 2 (1/10) 0 1 0 (1/10)).run_step 0 5).1 ∧
      ((PIDLongitudinalController.init 2 (1/10) 0 1 0 (1/10)).run_step 0 5).1 ≤ 1) ∧
    ((-1:ℝ) ≤ (latDefault.run_step (0, 0, 0) (3, 4)).1 ∧
      (latDefault.run_step (0, 0, 0) (3, 4)).1 ≤ 1) := by
  have h := pid_step_output_clamped
    (PIDLongitudinalController.init 2 (1/10) 0 1 0 (1/10)) 0 5
    latDefault (0, 0, 0) (3, 4) (by norm_num [PIDLongitudinalController.init])
    (by norm_num [latDefault, PIDLateralController.init])
  exact ⟨by norm_num, by norm_num, h.1, h.2⟩

lemma s3_dist_zero :
    ¬ norm2 ((0:ℝ) - ((s3 0).getD 0 default).x) ((0:ℝ) - ((s3 0).getD 0 default).y) > 1 := by
  rw [show (s3 0).getD 0 default = w0 from rfl,
    show w0.x = 0 from rfl, show w0.y = 0 from rfl]
  norm_num [norm2, Real.sqrt_zero]

lemma advanceCursor_s3 : advanceCursor (s3 0) 0 0 1 0 = 1 := by
  rw [advanceCursor_step (s3 0) 0 0 1 0 (by simp [s3]) s3_dist_zero,
    advanceCursor_stop_last (s3 0) 0 0 1 1 (by simp [s3])]

/-- Counterexample to claim C3 as stated: with the two-waypoint trajectory
`[(0,0,0,5), (0.5,0,0,5)]` and the vehicle at the origin, a single `run_step`
advances the cursor to 2 = `len(trajectory)`, which is outside the claimed
range `[0, len(trajectory))`. -/
theorem cursor_range_counterexample :
    (tracker0.run_step s3 v0 false).2.1.waypoint_index = 2 ∧
    (s3 tracker0.traj_ref).length = 2 ∧
    ¬ ((tracker0.run_step s3 v0 false).2.1.waypoint_index <
        (s3 tracker0.traj_ref).length) := by
  have hg : ¬ ((s3 tracker0.traj_ref).length ≤ tracker0.waypoint_index + 1) := by
    show ¬ ((2:ℕ) ≤ 0 + 1)
    omega
  have hidx : (tracker0.run_step s3 v0 false).2.1.waypoint_index =
      advanceCursor (s3 tracker0.traj_ref) v0.x v0.y tracker0.look_ahead
        tracker0.waypoint_index + 1 := by
    simp only [VehiclePIDController.run_step]
    rw [if_neg hg]
  have hbr : advanceCursor (s3 tracker0.traj_ref) v0.x v0.y tracker0.look_ahead
      tracker0.waypoint_index = advanceCursor (s3 0) 0 0 1 0 := rfl
  have hlen : (s3 tracker0.traj_ref).length = 2 := rfl
  rw [hidx, hbr, advanceCursor_s3, hlen]
  exact ⟨rfl, rfl, by omega⟩

/-- Claim C3 (amended): for any state with `cursor ≤ len(trajectory)` —
established by `set_trajectory`, which zeroes the cursor — each `run_step`
keeps the cursor in `[0, len(trajectory)]` (the cursor can reach
`len(trajectory)` itself, one past the last index, because of the
unconditional final increment), never decreases it, and once
`cursor ≥ len(trajectory) - 1` every subsequent `run_step` returns
`(0.0, 0.0)` and leaves state and trajectory untouched. -/
theorem cursor_invariant_step (c : VehiclePIDController) (s : Store) (v : VehicleLocation)
    (b : Bool) (h : c.waypoint_index ≤ (s c.traj_ref).length) :
    c.waypoint_index ≤ (c.run_step s v b).2.1.waypoint_index ∧
    (c.run_step s v b).2.1.waypoint_index ≤
      ((c.run_step s v b).2.2 (c.run_step s v b).2.1.traj_ref).length ∧
    ((s c.traj_ref).length ≤ c.waypoint_index + 1 →
      (c.run_step s v b).1 = (0, 0) ∧ (c.run_step s v b).2.1 = c ∧
      (c.run_step s v b).2.2 = s) ∧
    (∀ r, (c.set_traj s r).1.waypoint_index = 0) := by
  by_cases hg : (s c.traj_ref).length ≤ c.waypoint_index + 1
  · have he : c.run_step s v b = ((0, 0), c, s) := by
      simp only [VehiclePIDController.run_step]
      rw [if_pos hg]
    rw [he]
    exact ⟨le_rfl, h, fun _ => ⟨rfl, rfl, rfl⟩, fun r => rfl⟩
  · have hidx : (c.run_step s v b).2.1.waypoint_index =
        advanceCursor (s c.traj_ref) v.x v.y c.look_ahead c.waypoint_index + 1 := by
      simp only [VehiclePIDController.run_step]
      rw [if_neg hg]
    have href : (c.run_step s v b).2.1.traj_ref = c.traj_ref := by
      simp only [VehiclePIDController.run_step]
      rw [if_neg hg]
    have hstore : (c.run_step s v b).2.2 = s := by
      simp only [VehiclePIDController.run_step]
      rw [if_neg hg]
    refine ⟨?_, ?_, fun hterm => absurd hterm hg, fun r => rfl⟩
    · rw [hidx]
      exact le_trans
        (advanceCursor_ge (s c.traj_ref) v.x v.y c.look_ahead c.waypoint_index)
        (Nat.le_succ _)
    · rw [hidx, href, hstore]
      exact advanceCursor_le (s c.traj_ref) v.x v.y c.look_ahead c.waypoint_index
        (by omega)

/-- Witness for the amended C3 on a concrete tracker, store and pose. -/
theorem cursor_invariant_step_witness :
    tracker0.waypoint_index ≤ (tracker0.run_step s2 v0 false).2.1.waypoint_index ∧
    (tracker0.run_step s2 v0 false).2.1.waypoint_index ≤
      ((tracker0.run_step s2 v0 false).2.2
        (tracker0.run_step s2 v0 false).2.1.traj_ref).length ∧
    ((s2 tracker0.traj_ref).length ≤ tracker0.waypoint_index + 1 →
      (tracker0.run_step s2 v0 false).1 = (0, 0) ∧
      (tracker0.run_step s2 v0 false).2.1 = tracker0 ∧
      (tracker0.run_step s2 v0 false).2.2 = s2) ∧
    (∀ r, (tracker0.set_traj s2 r).1.waypoint_index = 0) :=
  cursor_invariant_step tracker0 s2 v0 false (by show (0:ℕ) ≤ 2; omega)

/-- Claim C6: the error history buffer holds at most 10 samples at all
times, evicts the oldest on push when full (so pushing 15 samples into an
empty buffer leaves exactly the last 10, in order), and for any `dt` the
derivative estimate is `(last - second_last) / dt` and the integral estimate
is `sum * dt` when at least 2 samples exist, each being `0.0` otherwise;
`_pid_control` pushes the speed error and uses exactly these estimates. -/
theorem error_buffer_contract :
    (∀ (buf : List ℝ) (x : ℝ), buf.length ≤ 10 → (bufPush buf x).length ≤ 10) ∧
    (∀ (buf : List ℝ) (x : ℝ), buf.length = 10 → bufPush buf x = buf.tail ++ [x]) ∧
    (∀ xs : List ℝ, xs.length = 15 → List.foldl bufPush [] xs = xs.drop 5) ∧
    (∀ (c : PIDLongitudinalController) (cs ts : ℝ),
      (c.run_step cs ts).2.error_buffer = bufPush c.error_buffer (ts - cs) ∧
      (c.run_step cs ts).1 =
        clip (c.K_P * (ts - cs)
            + c.K_D * errDerivative (bufPush c.error_buffer (ts - cs)) c.dt
            + c.K_I * errIntegral (bufPush c.error_buffer (ts - cs)) c.dt)
          c.output_min c.output_max) ∧
    (∀ (buf : List ℝ) (dt : ℝ), 2 ≤ buf.length →
      errDerivative buf dt = (buf.getD (buf.length - 1) 0 - buf.getD (buf.length - 2) 0) / dt ∧
      errIntegral buf dt = buf.sum * dt) ∧
    (∀ (buf : List ℝ) (dt : ℝ), buf.length < 2 →
      errDerivative buf dt = 0 ∧ errIntegral buf dt = 0) := by
  refine ⟨bufPush_length_le, bufPush_full, ?_, ?_, ?_, ?_⟩
  · intro xs hxs
    have h := foldl_bufPush xs [] (by simp)
    simpa [hxs] using h
  · intro c cs ts
    exact ⟨rfl, rfl⟩
  · intro buf dt h
    rw [errDerivative, if_pos h, errIntegral, if_pos h]
    exact ⟨rfl, rfl⟩
  · intro buf dt h
    rw [errDerivative, if_neg (by omega), errIntegral, if_neg (by omega)]
    exact ⟨rfl, rfl⟩

/-- Witness for C6 on concrete buffers: capacity, eviction, a 15-sample
push-through, and both estimate formulas. -/
theorem error_buffer_contract_witness :
    ((bufPush [1, 2] 3).length ≤ 10) ∧
    (bufPush [0, 1, 2, 3, 4, 5, 6, 7, 8, 9] 10 =
      List.tail [0, 1, 2, 3, 4, 5, 6, 7, 8, 9] ++ [10]) ∧
    (List.foldl bufPush [] [1, 2, 3, 4, 5, 6, 7, 8, 9, 10, 11, 12, 13, 14, 15] =
      List.drop 5 [1, 2, 3, 4, 5, 6, 7, 8, 9, 10, 11, 12, 13, 14, 15]) ∧
    (errDerivative [1, 4] 2 =
      (List.getD [1, 4] (List.length [1, 4] - 1) 0
        - List.getD [1, 4] (List.length [1, 4] - 2) 0) / 2 ∧
      errIntegral [1, 4] 2 = List.sum [1, 4] * 2) ∧
    (errDerivative [1] 2 = 0 ∧ errIntegral [1] 2 = 0) :=
  ⟨error_buffer_contract.1 [1, 2] 3 (by simp),
   error_buffer_contract.2.1 [0, 1, 2, 3, 4, 5, 6, 7, 8, 9] 10 (by simp),
   error_buffer_contract.2.2.1 [1, 2, 3, 4, 5, 6, 7, 8, 9, 10, 11, 12, 13, 14, 15] (by simp),
   error_buffer_contract.2.2.2.2.1 [1, 4] 2 (by simp),
   error_buffer_contract.2.2.2.2.2 [1] 2 (by simp)⟩

/-- Claim C7: with `K_P = 1`, `K_I = 0`, `K_D = 0` and an output range that
never binds (the real-valued embedding of the unbounded range
`[-∞, +∞]`, which every finite value satisfies), the longitudinal
`run_step current target` returns exactly `target - current`, for every
buffer state and every `dt`. -/
theorem pure_proportional_exact (output_max output_min dt : ℝ) (buf : List ℝ)
    (current target : ℝ)
    (h1 : output_min ≤ target - current) (h2 : target - current ≤ output_max) :
    ((PIDLongitudinalController.mk 1 0 0 output_max output_min dt buf).run_step
        current target).1 = target - current := by
  show clip (1 * (target - current)
      + 0 * errDerivative (bufPush buf (target - current)) dt
      + 0 * errIntegral (bufPush buf (target - current)) dt) output_min output_max
    = target - current
  rw [one_mul, zero_mul, zero_mul, add_zero, add_zero, clip,
    max_eq_left h1, min_eq_left h2]

/-- Witness for C7 at a concrete state and input. -/
theorem pure_proportional_exact_witness :
    ((-100:ℝ) ≤ 5 - 2) ∧ ((5:ℝ) - 2 ≤ 100) ∧
    ((PIDLongitudinalController.mk 1 0 0 100 (-100) (1/10) [3, 1]).run_step 2 5).1 = 5 - 2 :=
  ⟨by norm_num, by norm_num,
   pure_proportional_exact 100 (-100) (1/10) [3, 1] 2 5 (by norm_num) (by norm_num)⟩

/-- Claim C4: what the code actually does when the target coincides with the
vehicle position.  With the tracker's default lateral gains, the unguarded
normalization divides zero by zero; under the real-valued embedding
(`x / 0 = 0`) the clipped cosine is `0`, `acos` yields `π / 2`, and the
returned steering is `1` — not the neutral `0` the claim requires, and no
IndeterminateBearing condition exists anywhere in the code. -/
theorem lateral_zero_bearing_behavior :
    (latDefault.run_step (0, 0, 0) (0, 0)).1 = 1 ∧
    (latDefault.run_step (0, 0, 0) (0, 0)).1 ≠ 0 := by
  have key : (latDefault.run_step (0, 0, 0) (0, 0)).1 = 1 := by
    simp only [PIDLateralController.run_step, PIDLateralController.pid_control,
      latDefault, PIDLateralController.init, dot3, norm3, cross3z]
    norm_num
    rw [clip_eq_self 0 (-1) 1 (by norm_num) (by norm_num), Real.arccos_zero]
    have hb : bufPush [] (Real.pi / 2) = [Real.pi / 2] := by
      rw [bufPush, if_pos (by norm_num)]
      rfl
    rw [hb]
    have hd : errDerivative [Real.pi / 2] (1 / 10) = 0 := by
      rw [errDerivative, if_neg (by norm_num)]
    rw [hd]
    rw [show (2:ℝ) * (Real.pi / 2) + 1 / 5 * 0 = Real.pi from by ring]
    exact clip_eq_hi Real.pi (-1) 1 (by linarith [Real.pi_pos])
      (by linarith [Real.pi_gt_three])
  exact ⟨key, by rw [key]; norm_num⟩

/-- Claim C5: what the code actually does with an invalid configuration.
Constructing the longitudinal controller with `output_min = 1 > 0 =
output_max` succeeds silently — no InvalidConfiguration signal exists
anywhere in the code — and the defect surfaces only at the first control
tick, where `np.clip` with crossed bounds returns `output_max` (here `0`)
whatever the PID sum; likewise `change_parameters` accepts `dt = 0`. -/
theorem invalid_config_accepted :
    ((PIDLongitudinalController.init 1 0 0 0 1 (1/10)).run_step 0 5).1 = 0 ∧
    ((PIDLongitudinalController.init 1 0 0 1 0 (1/10)).change_parameters 1 0 0 0).dt
      = 0 := by
  constructor
  · simp only [PIDLongitudinalController.run_step, PIDLongitudinalController.pid_control,
      PIDLongitudinalController.init]
    norm_num
    rw [clip, max_eq_left (by norm_num), min_eq_right (by norm_num)]
  · rfl

/-- Counterexample to claim C8 as stated: `reset()` of a lateral controller
whose diagnostic log holds one entry leaves the log intact — the source
re-creates only `_e_buffer` and never clears `lat_error`. -/
theorem lateral_reset_log_counterexample :
    ({ latDefault with lat_error := [1] } : PIDLateralController).reset.lat_error = [1] ∧
    ([1] : List ℝ) ≠ [] := ⟨rfl, by simp⟩

/-- Claim C8 (amended): `reset()` of the lateral controller clears the error
history buffer and leaves the gains, `dt` and the append-only diagnostic log
`lat_error` all untouched. -/
theorem lateral_reset_frame (c : PIDLateralController) :
    c.reset.e_buffer = [] ∧ c.reset.K_P = c.K_P ∧ c.reset.K_D = c.K_D ∧
    c.reset.K_I = c.K_I ∧ c.reset.output_max = c.output_max ∧
    c.reset.output_min = c.output_min ∧ c.reset.dt = c.dt ∧
    c.reset.lat_error = c.lat_error :=
  ⟨rfl, rfl, rfl, rfl, rfl, rfl, rfl, rfl⟩

/-- Counterexample to claim C9 as stated: after `set_traj` has aliased the
caller's one-waypoint list (reference 5), `reset` runs `self.traj.clear()`,
which empties that very list in place: the caller's sequence changes. -/
theorem traj_inplace_mutation_counterexample :
    (({ tracker0 with traj_ref := 5 }).reset s1).2 5 = [] ∧
    s1 5 = [w0] ∧
    (({ tracker0 with traj_ref := 5 }).reset s1).2 5 ≠ s1 5 := by
  have h1 : (({ tracker0 with traj_ref := 5 }).reset s1).2 5 = [] := by
    simp [VehiclePIDController.reset, Store.clearAt]
  have h2 : s1 5 = [w0] := by simp [s1]
  refine ⟨h1, h2, ?_⟩
  rw [h1, h2]
  simp

/-- Claim C9 (amended): `set_traj` replaces the trajectory reference without
touching any list and `run_step` never modifies the store, but `reset`
empties the active trajectory list in place — mutating the caller-supplied
sequence — while touching no other list. -/
theorem tracker_store_frame (c : VehiclePIDController) (s : Store) (v : VehicleLocation)
    (b : Bool) (r n : ℕ) (hn : n ≠ c.traj_ref) :
    (c.run_step s v b).2.2 = s ∧
    (c.set_traj s r).2 = s ∧
    (c.reset s).2 c.traj_ref = [] ∧
    (c.reset s).2 n = s n := by
  refine ⟨?_, rfl, ?_, ?_⟩
  · simp only [VehiclePIDController.run_step]
    split <;> rfl
  · show Store.clearAt s c.traj_ref c.traj_ref = []
    simp [Store.clearAt]
  · show Store.clearAt s c.traj_ref n = s n
    simp [Store.clearAt, hn]

/-- Witness for the amended C9 on a concrete tracker and store. -/
theorem tracker_store_frame_witness :
    (({ tracker0 with traj_ref := 5 }).run_step s1 v0 false).2.2 = s1 ∧
    (({ tracker0 with traj_ref := 5 }).set_traj s1 3).2 = s1 ∧
    (({ tracker0 with traj_ref := 5 }).reset s1).2
      ({ tracker0 with traj_ref := 5 } : VehiclePIDController).traj_ref = [] ∧
    (({ tracker0 with traj_ref := 5 }).reset s1).2 0 = s1 0 :=
  tracker_store_frame { tracker0 with traj_ref := 5 } s1 v0 false 3 0
    (by show (0:ℕ) ≠ 5; omega)

/-- Claim C10: in the Tracking state with the throttle-as-target-speed flag
enabled, the returned throttle equals the selected waypoint's target speed
exactly, yet the longitudinal PID still executes first: its error history
buffer receives the sample `target_speed - current_speed`; the override
changes only the returned value, not the internal state update. -/
theorem thro_as_speed_override (c : VehiclePIDController) (s : Store)
    (v : VehicleLocation)
    (h : c.waypoint_index + 1 < (s c.traj_ref).length) :
    (c.run_step s v true).1.1 =
      ((s c.traj_ref).getD
        (advanceCursor (s c.traj_ref) v.x v.y c.look_ahead c.waypoint_index)
        default).target_speed ∧
    (c.run_step s v true).2.1.lon_controller.error_buffer =
      bufPush c.lon_controller.error_buffer
        (((s c.traj_ref).getD
          (advanceCursor (s c.traj_ref) v.x v.y c.look_ahead c.waypoint_index)
          default).target_speed - v.velocity) := by
  have hg : ¬ ((s c.traj_ref).length ≤ c.waypoint_index + 1) := by omega
  constructor
  · simp only [VehiclePIDController.run_step]
    rw [if_neg hg]
    simp only [if_true]
  · simp only [VehiclePIDController.run_step]
    rw [if_neg hg]
    rfl

/-- Witness for C10 on a concrete tracker, store and pose. -/
theorem thro_as_speed_override_witness :
    (tracker0.run_step s2 v0 true).1.1 =
      ((s2 tracker0.traj_ref).getD
        (advanceCursor (s2 tracker0.traj_ref) v0.x v0.y tracker0.look_ahead
          tracker0.waypoint_index) default).target_speed ∧
    (tracker0.run_step s2 v0 true).2.1.lon_controller.error_buffer =
      bufPush tracker0.lon_controller.error_buffer
        (((s2 tracker0.traj_ref).getD
          (advanceCursor (s2 tracker0.traj_ref) v0.x v0.y tracker0.look_ahead
            tracker0.waypoint_index) default).target_speed - v0.velocity) :=
  thro_as_speed_override tracker0 s2 v0 (by show (0:ℕ) + 1 < 2; omega)

end PidWptTracker

end
